import Mathlib

/-!
Shallow embedding of the HVAC loop-topology engine of the
EnergyPlus-MCP-epjson repository, namely
`energyplus_mcp_server/measures/hvac.py` (class `HVACMeasures`) and
`energyplus_mcp_server/utils/hvac_utils.py`.

Modelling conventions:
* A Python dictionary of string-valued fields is an association list in
  insertion order (`Attrs`); `dict.get` returns the value of the first
  binding, `dict.get(k, d)` falls back to the default.
* Python truthiness of a possibly-absent string (`None` and `""` are falsy)
  is the boolean `truthy`; Python `a or b` is `pyOr` / `pyOrS`.
* Record-valued fields (`BranchList.branches`, `Branch.components`,
  `Connector:Splitter.branches`, ...) are typed lists, following the epJSON
  shapes the source indexes into.
* Raised Python exceptions are the `Except`-error results of `PyErr`;
  `return None` is a `none` inside the `ok` constructor.
* Loops that build Python lists with `append` / `extend` are `List.foldl`
  with list concatenation; list comprehensions are `List.filterMap`.
-/

abbrev Attrs := List (String × String)

/-- First binding of a key in an association list, i.e. Python `dict.get(k)`
on a dict whose keys are unique. -/
def assocFind {α : Type} (l : List (String × α)) (k : String) : Option α :=
  (l.find? (fun p => p.1 == k)).map (fun p => p.2)

/-- Python `dict.get(k)` on a string-valued attribute map. -/
def pyGet (a : Attrs) (k : String) : Option String :=
  assocFind a k

/-- Python `dict.get(k, d)`. -/
def pyGetD (a : Attrs) (k d : String) : String :=
  (pyGet a k).getD d

/-- Python truthiness of an optional string: `None` and `""` are falsy. -/
def truthy : Option String → Bool
  | none => false
  | some s => !(s == "")

/-- Python `a or b` where both operands are optional strings. -/
def pyOr (a b : Option String) : Option String :=
  if truthy a then a else b

/-- Python `a or b` where both operands are strings. -/
def pyOrS (a b : String) : String :=
  if a == "" then b else a

/-- Extract the string held by a truthy optional value. -/
def ostr (o : Option String) : String := o.getD ""

/-- The singleton-or-nothing list appended by `if x: result.append(x)`
loop bodies. -/
def optList {α : Type} : Option α → List α
  | some a => [a]
  | none => []

@[simp] lemma optList_some {α : Type} (a : α) : optList (some a) = [a] := rfl

@[simp] lemma optList_none {α : Type} : optList (none : Option α) = [] := rfl

/-! ### Executable string operations

Python `str.replace`, `str.lower` and `str.endswith` are modelled over the
character list of the string (Python strings are sequences of code points),
so that every definition evaluates inside the kernel. -/

/-- Replace the leftmost, non-overlapping occurrences of a non-empty pattern,
as Python `str.replace` does.  Each recursive call consumes at least one
character, so fuel equal to the text length never runs out.  (The patterns
used by the engine are never empty; for an empty pattern this returns the
text unchanged.) -/
def replaceListAux (pat rep : List Char) : Nat → List Char → List Char
  | _, [] => []
  | 0, l => l
  | fuel + 1, c :: rest =>
    if pat.isPrefixOf (c :: rest) && !pat.isEmpty then
      rep ++ replaceListAux pat rep fuel (rest.drop (pat.length - 1))
    else c :: replaceListAux pat rep fuel rest

/-- Python `s.replace(pat, rep)`. -/
def strReplace (s pat rep : String) : String :=
  String.mk (replaceListAux pat.toList rep.toList s.toList.length s.toList)

/-- Python `s.lower()`. -/
def strToLower (s : String) : String :=
  String.mk (s.toList.map Char.toLower)

/-- Python `s.endswith(suffix)`. -/
def strEndsWith (s suffix : String) : Bool :=
  suffix.toList.isSuffixOf s.toList

/-! ## Numbered-field scan (`utils/hvac_utils.py`)

The field-name patterns contain a placeholder; `pattern.format(i)` is
modelled as replacement of the placeholder by the decimal index. -/

/-- The placeholder, written with escaped braces. -/
def placeholder : String := "\x7b\x7d"

/-- Python `pattern.format(i)`, used by the scans for indices `i ≥ 2`. -/
def fmtPat (pat : String) (i : Nat) : String :=
  strReplace pat placeholder (toString i)

/-- The explicitly numbered index-1 field:
`pattern.replace("_\x7b\x7d", "_1").replace("\x7b\x7d", "1")`. -/
def numberedField1 (pat : String) : String :=
  strReplace (strReplace pat ("_" ++ placeholder) "_1") placeholder "1"

/-- The unnumbered index-1 alias:
`pattern.replace("_\x7b\x7d", "").replace("\x7b\x7d", "")`. -/
def unnumberedField (pat : String) : String :=
  strReplace (strReplace pat ("_" ++ placeholder) "") placeholder ""

/-- The lookup the scans perform at index `i`: at index 1 the numbered field
with the unnumbered alias as fallback, from index 2 on the formatted field. -/
def lookupNumbered (obj : Attrs) (pat : String) (i : Nat) : Option String :=
  if i == 1 then
    pyOr (pyGet obj (numberedField1 pat)) (pyGet obj (unnumberedField pat))
  else
    pyGet obj (fmtPat pat i)

structure CompNT where
  name : String
  type : String
deriving DecidableEq, Repr

/-- Both fields of component index `i` are present and non-empty
(the negation of `if not comp_name or not comp_type: break`). -/
def presentC (obj : Attrs) (np tp : String) (i : Nat) : Bool :=
  truthy (lookupNumbered obj np i) && truthy (lookupNumbered obj tp i)

/-- The component entry appended for index `i`. -/
def entryC (obj : Attrs) (np tp : String) (i : Nat) : CompNT :=
  ⟨ostr (lookupNumbered obj np i), ostr (lookupNumbered obj tp i)⟩

def iterNumberedComponentsAux (obj : Attrs) (np tp : String) : Nat → Nat → List CompNT
  | _, 0 => []
  | i, fuel + 1 =>
    if presentC obj np tp i then
      entryC obj np tp i :: iterNumberedComponentsAux obj np tp (i + 1) fuel
    else []

/-- Source `iter_numbered_components(obj_data, name_field_pattern, type_field_pattern,
max_count)`: scan indices `1, 2, ...` and stop at the first index where either
field is absent or empty, or when `max_count` entries have been produced. -/
def iter_numbered_components (obj : Attrs) (np tp : String) (maxCount : Nat) : List CompNT :=
  iterNumberedComponentsAux obj np tp 1 maxCount

/-- The node field of index `i` is present and non-empty. -/
def presentN (obj : Attrs) (pat : String) (i : Nat) : Bool :=
  truthy (lookupNumbered obj pat i)

def iterNumberedNodesAux (obj : Attrs) (pat : String) : Nat → Nat → List String
  | _, 0 => []
  | i, fuel + 1 =>
    if presentN obj pat i then
      ostr (lookupNumbered obj pat i) :: iterNumberedNodesAux obj pat (i + 1) fuel
    else []

/-- Source `iter_numbered_nodes(obj_data, node_field_pattern, max_count)`. -/
def iter_numbered_nodes (obj : Attrs) (pat : String) (maxCount : Nat) : List String :=
  iterNumberedNodesAux obj pat 1 maxCount

/-! ### Specification lemmas for the scans -/

lemma iterAuxC_spec (obj : Attrs) (np tp : String) :
    ∀ (fuel i : Nat),
      (iterNumberedComponentsAux obj np tp i fuel).length ≤ fuel ∧
      (∀ j, j < (iterNumberedComponentsAux obj np tp i fuel).length →
        (iterNumberedComponentsAux obj np tp i fuel).get? j = some (entryC obj np tp (i + j)) ∧
        presentC obj np tp (i + j) = true) ∧
      ((iterNumberedComponentsAux obj np tp i fuel).length < fuel →
        presentC obj np tp (i + (iterNumberedComponentsAux obj np tp i fuel).length) = false) := by
  intro fuel
  induction fuel with
  | zero =>
    intro i
    simp [iterNumberedComponentsAux]
  | succ fuel ih =>
    intro i
    by_cases h : presentC obj np tp i
    · have hrec := ih (i + 1)
      simp only [iterNumberedComponentsAux, if_pos h]
      refine ⟨by simpa using Nat.succ_le_succ hrec.1, ?_, ?_⟩
      · intro j hj
        cases j with
        | zero => simpa using h
        | succ j =>
          simp only [List.length_cons, Nat.succ_lt_succ_iff] at hj
          have := hrec.2.1 j hj
          simpa [Nat.add_assoc, Nat.add_comm 1 j] using this
      · intro hlt
        simp only [List.length_cons, Nat.succ_lt_succ_iff] at hlt
        have := hrec.2.2 hlt
        simpa [Nat.add_assoc, Nat.add_comm 1 _] using this
    · simp only [iterNumberedComponentsAux, if_neg h]
      refine ⟨by simp, by simp, ?_⟩
      intro _
      simpa using by simpa using (Bool.not_eq_true _).mp h

lemma iterAuxN_spec (obj : Attrs) (pat : String) :
    ∀ (fuel i : Nat),
      (iterNumberedNodesAux obj pat i fuel).length ≤ fuel ∧
      (∀ j, j < (iterNumberedNodesAux obj pat i fuel).length →
        (iterNumberedNodesAux obj pat i fuel).get? j = some (ostr (lookupNumbered obj pat (i + j))) ∧
        presentN obj pat (i + j) = true) ∧
      ((iterNumberedNodesAux obj pat i fuel).length < fuel →
        presentN obj pat (i + (iterNumberedNodesAux obj pat i fuel).length) = false) := by
  intro fuel
  induction fuel with
  | zero =>
    intro i
    simp [iterNumberedNodesAux]
  | succ fuel ih =>
    intro i
    by_cases h : presentN obj pat i
    · have hrec := ih (i + 1)
      simp only [iterNumberedNodesAux, if_pos h]
      refine ⟨by simpa using Nat.succ_le_succ hrec.1, ?_, ?_⟩
      · intro j hj
        cases j with
        | zero => simpa using h
        | succ j =>
          simp only [List.length_cons, Nat.succ_lt_succ_iff] at hj
          have := hrec.2.1 j hj
          simpa [Nat.add_assoc, Nat.add_comm 1 j] using this
      · intro hlt
        simp only [List.length_cons, Nat.succ_lt_succ_iff] at hlt
        have := hrec.2.2 hlt
        simpa [Nat.add_assoc, Nat.add_comm 1 _] using this
    · simp only [iterNumberedNodesAux, if_neg h]
      refine ⟨by simp, by simp, ?_⟩
      intro _
      simpa using (Bool.not_eq_true _).mp h

/-! ## Data model

The collections of the epJSON object store that the topology engine reads.
Collections the code reads as plain string fields are `Attrs`; `BranchList`,
`Branch`, `Connector:Splitter` and `Connector:Mixer` carry record-valued
fields, typed after the epJSON shapes the source indexes into.  The fixed
catalogue of zone-equipment collections is looked up by type name in
`others`. -/

structure BranchRef where
  branch_name : String
deriving DecidableEq, Repr

structure BranchListObj where
  branches : List BranchRef
deriving DecidableEq, Repr

structure BranchComp where
  component_object_type : String
  component_name : String
  component_inlet_node_name : String
  component_outlet_node_name : String
deriving DecidableEq, Repr

structure BranchObj where
  components : List BranchComp
deriving DecidableEq, Repr

/-- A `Connector:Splitter` / `Connector:Mixer` object: its scalar fields plus
its `branches` sequence of records. -/
structure ConnObj where
  fields : Attrs
  branches : List Attrs
deriving DecidableEq, Repr

structure Model where
  plantLoop : List (String × Attrs)
  condenserLoop : List (String × Attrs)
  airLoopHVAC : List (String × Attrs)
  branchList : List (String × BranchListObj)
  branch : List (String × BranchObj)
  connectorList : List (String × Attrs)
  connectorSplitter : List (String × ConnObj)
  connectorMixer : List (String × ConnObj)
  supplyPath : List (String × Attrs)
  returnPath : List (String × Attrs)
  zoneSplitter : List (String × Attrs)
  zoneMixer : List (String × Attrs)
  returnPlenum : List (String × Attrs)
  others : List (String × List (String × Attrs))
deriving DecidableEq, Repr

/-- Python `ep.get(type_name, \x7b\x7d)` for the zone-equipment collections. -/
def getCollection (m : Model) (t : String) : List (String × Attrs) :=
  (assocFind m.others t).getD []

/-! ## Branch resolver (`_get_branch_details`, `_get_branches_from_list`) -/

structure CompInfo where
  type : String
  name : String
  inlet_node : String
  outlet_node : String
deriving DecidableEq, Repr

structure BranchInfo where
  name : String
  components : List CompInfo
deriving DecidableEq, Repr

/-- The component record `_get_branch_details` builds for one branch
component. -/
def compInfoOf (c : BranchComp) : CompInfo :=
  ⟨c.component_object_type, c.component_name,
   c.component_inlet_node_name, c.component_outlet_node_name⟩

/-- Source `_get_branch_details(ep, branch_name)`: `None` when the branch is absent
from the `Branch` collection, otherwise its components in declaration
order. -/
def get_branch_details (m : Model) (branch_name : String) : Option BranchInfo :=
  match assocFind m.branch branch_name with
  | some b =>
      some ⟨branch_name, b.components.foldl (fun acc c => acc ++ [compInfoOf c]) []⟩
  | none => none

/-- The branch-list-name argument of `_get_branches_from_list`.  At the
plant/condenser call sites it is a Python string.  At the air-loop call site
(`hvac.py` line 222) the assignment ends in a trailing comma, so the value is
a 1-tuple holding the string. -/
inductive BLKey where
  | pstr (s : String)
  | ptup (s : String)
deriving DecidableEq, Repr

/-- Python `==` between a `str` dict key and the argument: two strings compare
by contents; `str == tuple` is always `False`. -/
def blKeyEq (k : String) : BLKey → Bool
  | .pstr s => k == s
  | .ptup _ => false

/-- Source `_get_branches_from_list(ep, branch_list_name)`: find the first
`BranchList` key equal to the argument, then resolve its branch references in
order, dropping references whose `Branch` object is missing. -/
def get_branches_from_list (m : Model) (branch_list_name : BLKey) : List BranchInfo :=
  match m.branchList.find? (fun p => blKeyEq p.1 branch_list_name) with
  | some p =>
      p.2.branches.foldl (fun acc r =>
        acc ++ optList (get_branch_details m r.branch_name)) []
  | none => []

/-! ## Connector resolver (`_get_connectors_from_list`) -/

/-- The Python exceptions the engine can raise. -/
inductive PyErr where
  | valueError (msg : String)
  | keyError (key : String)
  | unboundLocalError
deriving DecidableEq, Repr

inductive ConnectorInfo where
  | splitter (name type inlet_branch : String) (outlet_branches : List String)
  | mixer (name type : String) (inlet_branches : List String) (outlet_branch : String)
deriving DecidableEq, Repr

/-- The empty dict used when the referenced connector object is absent. -/
def emptyConnObj : ConnObj := ⟨[], []⟩

/-- The splitter record: one inlet branch, outlet branches gathered from the
`branches` records that carry an `outlet_branch_name` key (the source filters
on key containment, so the `get` default is never used for kept records). -/
def mkSplitterRecord (m : Model) (cname ctype : String) : ConnectorInfo :=
  let sd := (assocFind m.connectorSplitter cname).getD emptyConnObj
  .splitter cname ctype (pyGetD sd.fields "inlet_branch_name" "Unknown")
    (sd.branches.filterMap (fun b => pyGet b "outlet_branch_name"))

/-- The mixer record, symmetric to the splitter. -/
def mkMixerRecord (m : Model) (cname ctype : String) : ConnectorInfo :=
  let md := (assocFind m.connectorMixer cname).getD emptyConnObj
  .mixer cname ctype (md.branches.filterMap (fun b => pyGet b "inlet_branch_name"))
    (pyGetD md.fields "outlet_branch_name" "Unknown")

/-- The body of the `for i in range(num_connector_items)` loop.  `i` counts
from 0, `rem` is the number of iterations left, `last` is the value of the
loop-local `connector_info` variable surviving from the previous iteration:
when the object-type matches neither suffix, the source appends that stale
value again, or raises `UnboundLocalError` on the first iteration.  Direct
dict indexing on a missing key raises `KeyError`. -/
def connectorsLoop (m : Model) (cd : Attrs) :
    Nat → Nat → Option ConnectorInfo → List ConnectorInfo →
      Except PyErr (List ConnectorInfo)
  | _, 0, _, acc => .ok acc
  | i, rem + 1, last, acc =>
    match pyGet cd ("connector_" ++ toString (i + 1) ++ "_name") with
    | none => .error (.keyError ("connector_" ++ toString (i + 1) ++ "_name"))
    | some cname =>
      match pyGet cd ("connector_" ++ toString (i + 1) ++ "_object_type") with
      | none => .error (.keyError ("connector_" ++ toString (i + 1) ++ "_object_type"))
      | some ctype =>
        if strEndsWith (strToLower ctype) "splitter" then
          connectorsLoop m cd (i + 1) rem (some (mkSplitterRecord m cname ctype))
            (acc ++ [mkSplitterRecord m cname ctype])
        else if strEndsWith (strToLower ctype) "mixer" then
          connectorsLoop m cd (i + 1) rem (some (mkMixerRecord m cname ctype))
            (acc ++ [mkMixerRecord m cname ctype])
        else
          match last with
          | some ci => connectorsLoop m cd (i + 1) rem (some ci) (acc ++ [ci])
          | none => .error .unboundLocalError

/-- Source `_get_connectors_from_list(ep, connector_list_name)`: `ok none` models the
two `return None` paths (list absent, odd key count), `ok (some l)` the
returned connector list, `error` a raised exception. -/
def get_connectors_from_list (m : Model) (connector_list_name : String) :
    Except PyErr (Option (List ConnectorInfo)) :=
  match assocFind m.connectorList connector_list_name with
  | none => .ok none
  | some cd =>
    if cd.length % 2 == 0 then
      match connectorsLoop m cd 0 (cd.length / 2) none [] with
      | .ok l => .ok (some l)
      | .error e => .error e
    else .ok none

/-! ## Air-loop path and zone helpers -/

structure SupplyPathInfo where
  name : String
  inlet_node : String
  components : List CompNT
deriving DecidableEq, Repr

structure ReturnPathInfo where
  name : String
  outlet_node : String
  components : List CompNT
deriving DecidableEq, Repr

def compNamePat : String := "component_" ++ placeholder ++ "_name"

def compTypePat : String := "component_" ++ placeholder ++ "_object_type"

/-- The path record built for a matching `AirLoopHVAC:SupplyPath` object. -/
def supplyPathInfoOf (p : String × Attrs) : SupplyPathInfo :=
  ⟨p.1, pyGetD p.2 "supply_air_path_inlet_node_name" "",
    iter_numbered_components p.2 compNamePat compTypePat 50⟩

/-- Source `_get_airloop_supply_paths_by_node(ep, inlet_node)`: keep every
`AirLoopHVAC:SupplyPath` whose inlet-node field equals the given node. -/
def get_airloop_supply_paths_by_node (m : Model) (inlet_node : String) : List SupplyPathInfo :=
  m.supplyPath.foldl (fun acc p =>
    acc ++ (if pyGetD p.2 "supply_air_path_inlet_node_name" "" == inlet_node
            then [supplyPathInfoOf p] else [])) []

/-- The path record built for a matching `AirLoopHVAC:ReturnPath` object. -/
def returnPathInfoOf (p : String × Attrs) : ReturnPathInfo :=
  ⟨p.1, pyGetD p.2 "return_air_path_outlet_node_name" "",
    iter_numbered_components p.2 compNamePat compTypePat 50⟩

/-- Source `_get_airloop_return_paths_by_node(ep, outlet_node)`. -/
def get_airloop_return_paths_by_node (m : Model) (outlet_node : String) : List ReturnPathInfo :=
  m.returnPath.foldl (fun acc p =>
    acc ++ (if pyGetD p.2 "return_air_path_outlet_node_name" "" == outlet_node
            then [returnPathInfoOf p] else [])) []

structure ZoneSplitterInfo where
  name : String
  type : String
  inlet_node : String
  outlet_nodes : List String
deriving DecidableEq, Repr

structure ZoneMixerInfo where
  name : String
  type : String
  outlet_node : String
  inlet_nodes : List String
deriving DecidableEq, Repr

structure ReturnPlenumInfo where
  name : String
  type : String
  zone_name : String
  zone_node_name : String
  outlet_node : String
  induced_air_outlet_node : String
  inlet_nodes : List String
deriving DecidableEq, Repr

def outletNodePat : String := "outlet_" ++ placeholder ++ "_node_name"

def inletNodePat : String := "inlet_" ++ placeholder ++ "_node_name"

/-- Source `_get_airloop_zone_splitter_details(ep, splitter_name)`. -/
def get_airloop_zone_splitter_details (m : Model) (splitter_name : String) :
    Option ZoneSplitterInfo :=
  match assocFind m.zoneSplitter splitter_name with
  | some sp =>
      some ⟨splitter_name, "AirLoopHVAC:ZoneSplitter",
        pyGetD sp "inlet_node_name" "Unknown",
        iter_numbered_nodes sp outletNodePat 50⟩
  | none => none

/-- Source `_get_airloop_zone_mixer_details(ep, mixer_name)`. -/
def get_airloop_zone_mixer_details (m : Model) (mixer_name : String) :
    Option ZoneMixerInfo :=
  match assocFind m.zoneMixer mixer_name with
  | some mx =>
      some ⟨mixer_name, "AirLoopHVAC:ZoneMixer",
        pyGetD mx "outlet_node_name" "Unknown",
        iter_numbered_nodes mx inletNodePat 50⟩
  | none => none

/-- Source `_get_airloop_return_plenum_details(ep, plenum_name)`. -/
def get_airloop_return_plenum_details (m : Model) (plenum_name : String) :
    Option ReturnPlenumInfo :=
  match assocFind m.returnPlenum plenum_name with
  | some pl =>
      some ⟨plenum_name, "AirLoopHVAC:ReturnPlenum",
        pyGetD pl "zone_name" "Unknown",
        pyGetD pl "zone_node_name" "Unknown",
        pyGetD pl "outlet_node_name" "Unknown",
        pyGetD pl "induced_air_outlet_node_or_nodelist_name" "",
        iter_numbered_nodes pl inletNodePat 50⟩
  | none => none

structure ZoneEquipInfo where
  type : String
  name : String
  inlet_node : String
  outlet_node : String
  zone_name : Option String
deriving DecidableEq, Repr

/-- The fixed catalogue of zone-equipment collections scanned by
`_get_zone_equipment_for_node`. -/
def air_terminal_types : List String :=
  ["AirTerminal:SingleDuct:Uncontrolled",
   "AirTerminal:SingleDuct:VAV:Reheat",
   "AirTerminal:SingleDuct:VAV:NoReheat",
   "AirTerminal:SingleDuct:ConstantVolume:Reheat",
   "AirTerminal:SingleDuct:ConstantVolume:NoReheat",
   "AirTerminal:DualDuct:VAV",
   "AirTerminal:DualDuct:ConstantVolume",
   "ZoneHVAC:Baseboard:Convective:Electric",
   "ZoneHVAC:Baseboard:Convective:Water",
   "ZoneHVAC:PackagedTerminalAirConditioner",
   "ZoneHVAC:PackagedTerminalHeatPump",
   "ZoneHVAC:WindowAirConditioner",
   "ZoneHVAC:UnitHeater",
   "ZoneHVAC:UnitVentilator",
   "ZoneHVAC:EnergyRecoveryVentilator",
   "ZoneHVAC:FourPipeFanCoil",
   "ZoneHVAC:IdealLoadsAirSystem"]

/-- Source `_get_zone_equipment_for_node(ep, inlet_node)`: for each catalogued
collection and each object in it, test the prioritized inlet-node aliases
(Python `or` chain) against the target node. -/
def get_zone_equipment_for_node (m : Model) (inlet_node : String) : List ZoneEquipInfo :=
  air_terminal_types.foldl (fun acc tt =>
    (getCollection m tt).foldl (fun acc2 p =>
      let terminal := p.2
      let terminal_inlet :=
        pyOrS (pyGetD terminal "air_inlet_node_name" "")
          (pyOrS (pyGetD terminal "air_inlet_node" "")
            (pyOrS (pyGetD terminal "supply_air_inlet_node_name" "")
              (pyGetD terminal "zone_supply_air_node_name" "")))
      if terminal_inlet == inlet_node then
        acc2 ++ [⟨tt, p.1, terminal_inlet,
          pyOrS (pyGetD terminal "air_outlet_node_name" "")
            (pyOrS (pyGetD terminal "air_outlet_node" "")
              (pyGetD terminal "zone_air_node_name" "Unknown")),
          if (pyGet terminal "zone_name").isSome
          then some (pyGetD terminal "zone_name" "Unknown") else none⟩]
      else acc2) acc) []

/-! ## Air-loop topology (`_get_airloop_topology`) -/

structure AirSupplySide where
  branches : List BranchInfo
  inlet_node : String
  outlet_node : String
  components : List CompInfo
  supply_paths : List SupplyPathInfo
deriving DecidableEq, Repr

structure AirDemandSide where
  inlet_node : String
  outlet_node : String
  zone_splitters : List ZoneSplitterInfo
  zone_mixers : List ZoneMixerInfo
  return_plenums : List ReturnPlenumInfo
  zone_equipment : List ZoneEquipInfo
  supply_paths : List SupplyPathInfo
  return_paths : List ReturnPathInfo
deriving DecidableEq, Repr

structure AirTopology where
  loop_name : String
  loop_type : String
  supply_side : AirSupplySide
  demand_side : AirDemandSide
deriving DecidableEq, Repr

/-- Source `_get_airloop_topology(ep, loop_obj, loop_name)`.  The assignment of the
supply branch-list name (`hvac.py` line 222) ends in a trailing comma, so the
Python value is the 1-tuple `(loop_obj.get("plant_side_branch_list_name",
"Unknown"),)`; a non-empty tuple is truthy, so the branch lookup always runs,
with the tuple as its argument. -/
def get_airloop_topology (m : Model) (loop_obj : Attrs) (loop_name : String) : AirTopology :=
  let demand_inlet := pyGetD loop_obj "demand_side_inlet_node_names" "Unknown"
  let demand_outlet := pyGetD loop_obj "demand_side_outlet_node_names" "Unknown"
  let supply_branch_list_name : BLKey :=
    .ptup (pyGetD loop_obj "plant_side_branch_list_name" "Unknown")
  let supply_branches := get_branches_from_list m supply_branch_list_name
  let components := supply_branches.foldl (fun acc b => acc ++ b.components) []
  let supply_paths := get_airloop_supply_paths_by_node m demand_inlet
  let return_paths := get_airloop_return_paths_by_node m demand_outlet
  let zone_splitters := supply_paths.foldl (fun acc sp =>
    sp.components.foldl (fun acc2 c =>
      if c.type == "AirLoopHVAC:ZoneSplitter" then
        acc2 ++ optList (get_airloop_zone_splitter_details m c.name)
      else acc2) acc) []
  let zone_mixers := return_paths.foldl (fun acc rp =>
    rp.components.foldl (fun acc2 c =>
      if c.type == "AirLoopHVAC:ZoneMixer" then
        acc2 ++ optList (get_airloop_zone_mixer_details m c.name)
      else acc2) acc) []
  let return_plenums := return_paths.foldl (fun acc rp =>
    rp.components.foldl (fun acc2 c =>
      if c.type == "AirLoopHVAC:ReturnPlenum" then
        acc2 ++ optList (get_airloop_return_plenum_details m c.name)
      else acc2) acc) []
  let zone_equipment := zone_splitters.foldl (fun acc sp =>
    sp.outlet_nodes.foldl (fun acc2 onode =>
      acc2 ++ get_zone_equipment_for_node m onode) acc) []
  ⟨loop_name, "AirLoopHVAC",
   ⟨supply_branches,
    pyGetD loop_obj "supply_side_inlet_node_name" "Unknown",
    pyGetD loop_obj "supply_side_outlet_node_name" "Unknown",
    components, []⟩,
   ⟨demand_inlet, demand_outlet, zone_splitters, zone_mixers, return_plenums,
    zone_equipment, supply_paths, return_paths⟩⟩

/-! ## Plant/condenser topology (`_get_plant_condenser_topology`) -/

structure PCside where
  branches : List BranchInfo
  inlet_node : String
  outlet_node : String
  connector_lists : Option (List ConnectorInfo)
deriving DecidableEq, Repr

structure PCTopology where
  loop_name : String
  loop_type : String
  supply_side : PCside
  demand_side : PCside
deriving DecidableEq, Repr

/-- Source `_get_plant_condenser_topology(ep, loop_obj, loop_type, loop_name)`.
The `connector_lists` entry starts as the empty list and is overwritten by the
resolver result (possibly Python `None`) when the list-name field is truthy;
exceptions raised by the connector resolver propagate. -/
def get_plant_condenser_topology (m : Model) (loop_obj : Attrs)
    (loop_type loop_name : String) : Except PyErr PCTopology :=
  let supply_in :=
    if loop_type == "PlantLoop" then pyGetD loop_obj "plant_side_inlet_node_name" "Unknown"
    else if loop_type == "CondenserLoop" then pyGetD loop_obj "condenser_side_inlet_node_name" "Unknown"
    else ""
  let supply_out :=
    if loop_type == "PlantLoop" then pyGetD loop_obj "plant_side_outlet_node_name" "Unknown"
    else if loop_type == "CondenserLoop" then pyGetD loop_obj "condenser_side_outlet_node_name" "Unknown"
    else ""
  let demand_in := pyGetD loop_obj "demand_side_inlet_node_name" "Unknown"
  let demand_out := pyGetD loop_obj "demand_side_outlet_node_name" "Unknown"
  let supply_branch_list_name :=
    if loop_type == "PlantLoop" then pyGetD loop_obj "plant_side_branch_list_name" ""
    else if loop_type == "CondenserLoop" then pyGetD loop_obj "condenser_side_branch_list_name" ""
    else pyGetD loop_obj "supply_side_branch_list_name" ""
  let demand_branch_list_name := pyGetD loop_obj "demand_side_branch_list_name" ""
  let supply_branches :=
    if supply_branch_list_name != "" then
      get_branches_from_list m (.pstr supply_branch_list_name)
    else []
  let demand_branches :=
    if demand_branch_list_name != "" then
      get_branches_from_list m (.pstr demand_branch_list_name)
    else []
  let supply_connector_list :=
    if loop_type == "PlantLoop" then pyGetD loop_obj "plant_side_connector_list_name" ""
    else if loop_type == "CondenserLoop" then pyGetD loop_obj "condenser_side_connector_list_name" ""
    else pyGetD loop_obj "supply_side_connector_list_name" ""
  let demand_connector_list := pyGetD loop_obj "demand_side_connector_list_name" ""
  match (if supply_connector_list != "" then
           get_connectors_from_list m supply_connector_list
         else .ok (some [])) with
  | .error e => .error e
  | .ok sconn =>
    match (if demand_connector_list != "" then
             get_connectors_from_list m demand_connector_list
           else .ok (some [])) with
    | .error e => .error e
    | .ok dconn =>
      .ok ⟨loop_name, loop_type,
        ⟨supply_branches, supply_in, supply_out, sconn⟩,
        ⟨demand_branches, demand_in, demand_out, dconn⟩⟩

/-! ## Loop discovery and dispatch (`get_loop_topology`) -/

inductive Topology where
  | pc (t : PCTopology)
  | air (t : AirTopology)
deriving DecidableEq, Repr

/-- The `if / elif / elif` chain of `get_loop_topology` lines 145-153: the
first collection containing the name decides the loop type and object. -/
def findLoop (m : Model) (loop_name : String) : Option (String × Attrs) :=
  match assocFind m.plantLoop loop_name with
  | some o => some ("PlantLoop", o)
  | none =>
    match assocFind m.condenserLoop loop_name with
    | some o => some ("CondenserLoop", o)
    | none =>
      match assocFind m.airLoopHVAC loop_name with
      | some o => some ("AirLoopHVAC", o)
      | none => none

/-- The message of the `ValueError` raised when the loop is not found
(quotation marks around the name elided). -/
def notFoundMsg (loop_name : String) : String :=
  "Loop " ++ loop_name ++ " not found in the IDF file"

/-- Source `get_loop_topology(epjson_data, loop_name)`.  `if not loop_obj` is Python
truthiness: both a name found in no collection and a name bound to an empty
attribute map raise the not-found `ValueError`. -/
def get_loop_topology (m : Model) (loop_name : String) : Except PyErr Topology :=
  match findLoop m loop_name with
  | none => .error (.valueError (notFoundMsg loop_name))
  | some (t, o) =>
    if o.isEmpty then .error (.valueError (notFoundMsg loop_name))
    else if t == "AirLoopHVAC" then .ok (.air (get_airloop_topology m o loop_name))
    else (get_plant_condenser_topology m o t loop_name).map .pc

/-! ## State-threaded form of the query

The source receives the model as a shared mutable dictionary; translated with
explicit state passing, every access it performs on `ep` is a read
(`dict.get`, `in`, indexing, `.items()` — there is no assignment into `ep`),
so each primitive returns its state unchanged. -/

def EpState (α : Type) : Type := Model → α × Model

def stPure {α : Type} (a : α) : EpState α := fun m => (a, m)

def stBind {α β : Type} (x : EpState α) (f : α → EpState β) : EpState β :=
  fun m => f (x m).1 (x m).2

/-- The loop-discovery reads of lines 141-153. -/
def findLoopST (loop_name : String) : EpState (Option (String × Attrs)) :=
  fun m => (findLoop m loop_name, m)

/-- The reads performed by `_get_airloop_topology` and its helpers. -/
def airloopTopologyST (loop_obj : Attrs) (loop_name : String) : EpState AirTopology :=
  fun m => (get_airloop_topology m loop_obj loop_name, m)

/-- The reads performed by `_get_plant_condenser_topology` and its helpers. -/
def pcTopologyST (loop_obj : Attrs) (loop_type loop_name : String) :
    EpState (Except PyErr PCTopology) :=
  fun m => (get_plant_condenser_topology m loop_obj loop_type loop_name, m)

/-- Query `get_loop_topology` with the model threaded as explicit state. -/
def getLoopTopologyST (loop_name : String) : EpState (Except PyErr Topology) :=
  stBind (findLoopST loop_name) (fun fd =>
    match fd with
    | none => stPure (.error (.valueError (notFoundMsg loop_name)))
    | some (t, o) =>
      if o.isEmpty then stPure (.error (.valueError (notFoundMsg loop_name)))
      else if t == "AirLoopHVAC" then
        stBind (airloopTopologyST o loop_name) (fun a => stPure (.ok (.air a)))
      else
        stBind (pcTopologyST o t loop_name) (fun r => stPure (r.map .pc)))

/-! ## List-building helper lemmas -/

lemma foldl_append_opt {α β : Type} (f : α → Option β) :
    ∀ (l : List α) (acc : List β),
      l.foldl (fun acc x => acc ++ optList (f x)) acc = acc ++ l.filterMap f := by
  intro l
  induction l with
  | nil => intro acc; simp
  | cons x xs ih =>
    intro acc
    cases hfx : f x <;> simp [hfx, ih, List.filterMap_cons]

lemma foldl_append_guard {α β : Type} (p : α → Bool) (g : α → β) :
    ∀ (l : List α) (acc : List β),
      l.foldl (fun acc x => acc ++ (if p x then [g x] else [])) acc
        = acc ++ l.filterMap (fun x => if p x then some (g x) else none) := by
  intro l
  induction l with
  | nil => intro acc; simp
  | cons x xs ih =>
    intro acc
    by_cases hp : p x <;> simp [hp, ih, List.filterMap_cons]

lemma foldl_append_map {α β : Type} (g : α → β) :
    ∀ (l : List α) (acc : List β),
      l.foldl (fun acc x => acc ++ [g x]) acc = acc ++ l.map g := by
  intro l
  induction l with
  | nil => intro acc; simp
  | cons x xs ih => intro acc; simp [ih]

lemma filterMap_map_eq_of_isSome {α β : Type} (f : α → Option β) :
    ∀ (l : List α), (∀ x, x ∈ l → (f x).isSome = true) →
      (l.filterMap f).map some = l.map f := by
  intro l
  induction l with
  | nil => intro _; rfl
  | cons x xs ih =>
    intro h
    have hx := h x (by simp)
    cases hfx : f x with
    | none => rw [hfx] at hx; simp at hx
    | some y =>
      simp [List.filterMap_cons, hfx, ih (fun z hz => h z (by simp [hz]))]

/-! ## Facts about the branch resolver -/

lemma find?_ptup (l : List (String × BranchListObj)) (s : String) :
    l.find? (fun p => blKeyEq p.1 (.ptup s)) = none := by
  induction l with
  | nil => rfl
  | cons x xs ih => simp [List.find?_cons, blKeyEq, ih]

/-- The air-loop call site passes the trailing-comma 1-tuple, which equals no
string key, so the lookup always comes back empty. -/
lemma branches_from_ptup (m : Model) (s : String) :
    get_branches_from_list m (.ptup s) = [] := by
  unfold get_branches_from_list
  rw [find?_ptup]

lemma find?_pstr (l : List (String × BranchListObj)) (nm : String) :
    l.find? (fun p => blKeyEq p.1 (.pstr nm)) = l.find? (fun p => p.1 == nm) := by
  induction l with
  | nil => rfl
  | cons x xs ih => simp [List.find?_cons, blKeyEq, ih]

lemma get_branch_details_some (m : Model) (bn : String) (bo : BranchObj)
    (h : assocFind m.branch bn = some bo) :
    get_branch_details m bn = some ⟨bn, bo.components.map compInfoOf⟩ := by
  unfold get_branch_details
  rw [h]
  simp [foldl_append_map]

lemma get_branch_details_none (m : Model) (bn : String)
    (h : assocFind m.branch bn = none) :
    get_branch_details m bn = none := by
  unfold get_branch_details
  rw [h]

lemma get_branches_from_list_pstr (m : Model) (nm : String) (bl : BranchListObj)
    (h : assocFind m.branchList nm = some bl) :
    get_branches_from_list m (.pstr nm)
      = bl.branches.filterMap (fun r => get_branch_details m r.branch_name) := by
  unfold get_branches_from_list
  rw [find?_pstr]
  unfold assocFind at h
  cases hq : m.branchList.find? (fun p => p.1 == nm) with
  | none => rw [hq] at h; simp at h
  | some q =>
    rw [hq] at h
    simp only [Option.map_some', Option.some_inj] at h
    subst h
    simpa using foldl_append_opt (fun r => get_branch_details m r.branch_name) q.2.branches []

lemma iterAuxC_nil_of_absent (obj : Attrs) (np tp : String) (i fuel : Nat)
    (h : presentC obj np tp i = false) :
    iterNumberedComponentsAux obj np tp i (fuel + 1) = [] := by
  simp [iterNumberedComponentsAux, h]

lemma iterAuxN_nil_of_absent (obj : Attrs) (pat : String) (i fuel : Nat)
    (h : presentN obj pat i = false) :
    iterNumberedNodesAux obj pat i (fuel + 1) = [] := by
  simp [iterNumberedNodesAux, h]

/-- C3: for every attribute map and field pattern(s), the numbered-field
scans (component scan and node scan) return exactly the entries at indices
`1..k-1`, where `k` is the least index whose field lookup is absent or empty,
in index order; the result never exceeds the fixed ceiling of 50 entries, and
an attribute map with no matching fields yields an empty sequence rather than
an error. -/
theorem numbered_scan_spec_C3 (obj : Attrs) (np tp pat : String) :
    ((iter_numbered_components obj np tp 50).length ≤ 50 ∧
     (∀ j, j < (iter_numbered_components obj np tp 50).length →
        (iter_numbered_components obj np tp 50).get? j = some (entryC obj np tp (1 + j)) ∧
        presentC obj np tp (1 + j) = true) ∧
     ((iter_numbered_components obj np tp 50).length < 50 →
        presentC obj np tp (1 + (iter_numbered_components obj np tp 50).length) = false) ∧
     (presentC obj np tp 1 = false → iter_numbered_components obj np tp 50 = [])) ∧
    ((iter_numbered_nodes obj pat 50).length ≤ 50 ∧
     (∀ j, j < (iter_numbered_nodes obj pat 50).length →
        (iter_numbered_nodes obj pat 50).get? j = some (ostr (lookupNumbered obj pat (1 + j))) ∧
        presentN obj pat (1 + j) = true) ∧
     ((iter_numbered_nodes obj pat 50).length < 50 →
        presentN obj pat (1 + (iter_numbered_nodes obj pat 50).length) = false) ∧
     (presentN obj pat 1 = false → iter_numbered_nodes obj pat 50 = [])) := by
  have hc := iterAuxC_spec obj np tp 50 1
  have hn := iterAuxN_spec obj pat 50 1
  refine ⟨⟨hc.1, hc.2.1, hc.2.2, ?_⟩, hn.1, hn.2.1, hn.2.2, ?_⟩
  · intro h
    exact iterAuxC_nil_of_absent obj np tp 1 49 h
  · intro h
    exact iterAuxN_nil_of_absent obj pat 1 49 h

def C3wobj : Attrs :=
  [("component_1_name", "C1"), ("component_1_object_type", "T1"),
   ("component_2_name", "C2"), ("component_2_object_type", "T2"),
   ("outlet_node_name", "N1"), ("outlet_2_node_name", "N2")]

def outletNodePatW : String := "outlet_" ++ placeholder ++ "_node_name"

theorem numbered_scan_spec_C3_witness :
    iter_numbered_components C3wobj compNamePat compTypePat 50
      = [⟨"C1", "T1"⟩, ⟨"C2", "T2"⟩] ∧
    iter_numbered_nodes C3wobj outletNodePatW 50 = ["N1", "N2"] ∧
    (iter_numbered_components C3wobj compNamePat compTypePat 50).length ≤ 50 ∧
    ((iter_numbered_components C3wobj compNamePat compTypePat 50).length < 50 →
      presentC C3wobj compNamePat compTypePat
        (1 + (iter_numbered_components C3wobj compNamePat compTypePat 50).length) = false) := by
  refine ⟨by rfl, by rfl, ?_, ?_⟩
  · exact (numbered_scan_spec_C3 C3wobj compNamePat compTypePat outletNodePatW).1.1
  · exact (numbered_scan_spec_C3 C3wobj compNamePat compTypePat outletNodePatW).1.2.2.1

/-- C4: for every BranchList (found under its name) the resolution is the
reference-order filtered map of branch details: when all referenced branches
exist there is exactly one record per reference in declaration order; each
record carries the components in declaration order with their four fields;
a reference whose Branch object is missing is omitted without failing. -/
theorem branch_list_resolution_C4 (m : Model) (nm : String) (bl : BranchListObj)
    (hfind : assocFind m.branchList nm = some bl) :
    get_branches_from_list m (.pstr nm)
        = bl.branches.filterMap (fun r => get_branch_details m r.branch_name) ∧
    ((∀ r, r ∈ bl.branches → (assocFind m.branch r.branch_name).isSome = true) →
      (get_branches_from_list m (.pstr nm)).map some
        = bl.branches.map (fun r => get_branch_details m r.branch_name)) ∧
    (∀ bn bo, assocFind m.branch bn = some bo →
      get_branch_details m bn = some ⟨bn, bo.components.map compInfoOf⟩) ∧
    (∀ bn, assocFind m.branch bn = none → get_branch_details m bn = none) := by
  refine ⟨get_branches_from_list_pstr m nm bl hfind, ?_, ?_, ?_⟩
  · intro hall
    rw [get_branches_from_list_pstr m nm bl hfind]
    refine filterMap_map_eq_of_isSome _ bl.branches ?_
    intro r hr
    have := hall r hr
    unfold get_branch_details
    cases hb : assocFind m.branch r.branch_name with
    | none => rw [hb] at this; simp at this
    | some bo => simp
  · intro bn bo h
    exact get_branch_details_some m bn bo h
  · intro bn h
    exact get_branch_details_none m bn h

def C4model : Model :=
  ⟨[], [], [],
   [("BL", ⟨[⟨"B1"⟩]⟩)],
   [("B1", ⟨[⟨"Pipe:Adiabatic", "P1", "N1", "N2"⟩]⟩)],
   [], [], [], [], [], [], [], [], []⟩

theorem branch_list_resolution_C4_witness :
    get_branches_from_list C4model (.pstr "BL")
        = [⟨"B1", [⟨"Pipe:Adiabatic", "P1", "N1", "N2"⟩]⟩] ∧
    (get_branches_from_list C4model (.pstr "BL")).map some
        = (⟨[⟨"B1"⟩]⟩ : BranchListObj).branches.map
            (fun r => get_branch_details C4model r.branch_name) := by
  refine ⟨by rfl, ?_⟩
  exact (branch_list_resolution_C4 C4model "BL" ⟨[⟨"B1"⟩]⟩ (by rfl)).2.1 (by decide)

/-! ## C1: air-loop supply branches -/

def C1loopAttrs : Attrs :=
  [("supply_side_inlet_node_name", "SIN"), ("supply_side_outlet_node_name", "SOUT"),
   ("demand_side_inlet_node_names", "DIN"), ("demand_side_outlet_node_names", "DOUT"),
   ("plant_side_branch_list_name", "BL")]

def C1model : Model :=
  ⟨[], [], [("AL", C1loopAttrs)],
   [("BL", ⟨[⟨"B1"⟩]⟩)],
   [("B1", ⟨[⟨"Fan:ConstantVolume", "F1", "N1", "N2"⟩]⟩)],
   [], [], [], [], [], [], [], [], []⟩

/-- C1 (code defect witnessed): for every air loop the supply side of the
topology is empty — the trailing comma at `hvac.py` line 222 turns the
branch-list name into a 1-tuple, which Python `==` never equates with a
string key — even when, as in `C1model`, the loop names a `BranchList`
that is present and resolvable (conjuncts 2-5 show the same model and list
resolve fine when addressed with the plain string). -/
theorem airloop_supply_branches_C1 :
    (∀ (m : Model) (loop_obj : Attrs) (loop_name : String),
      (get_airloop_topology m loop_obj loop_name).supply_side.branches = [] ∧
      (get_airloop_topology m loop_obj loop_name).supply_side.components = []) ∧
    assocFind C1model.branchList "BL" = some ⟨[⟨"B1"⟩]⟩ ∧
    pyGetD C1loopAttrs "plant_side_branch_list_name" "Unknown" = "BL" ∧
    get_branches_from_list C1model (.pstr "BL")
      = [⟨"B1", [⟨"Fan:ConstantVolume", "F1", "N1", "N2"⟩]⟩] ∧
    get_loop_topology C1model "AL"
      = .ok (.air ⟨"AL", "AirLoopHVAC",
          ⟨[], "SIN", "SOUT", [], []⟩,
          ⟨"DIN", "DOUT", [], [], [], [], [], []⟩⟩) := by
  refine ⟨?_, by rfl, by rfl, by rfl, by rfl⟩
  intro m loop_obj loop_name
  constructor
  · simp [get_airloop_topology, branches_from_ptup]
  · simp [get_airloop_topology, branches_from_ptup]

/-! ## C2: connector types matching neither suffix -/

def C2connList4 : Attrs :=
  [("connector_1_name", "S1"), ("connector_1_object_type", "Connector:Splitter"),
   ("connector_2_name", "X1"), ("connector_2_object_type", "Connector:Bogus")]

def C2connList2 : Attrs :=
  [("connector_1_name", "X2"), ("connector_1_object_type", "Connector:Bogus")]

def C2model : Model :=
  ⟨[], [], [], [], [],
   [("CL4", C2connList4), ("CL2", C2connList2)],
   [("S1", ⟨[("inlet_branch_name", "BIn")], [[("outlet_branch_name", "BOut1")]]⟩)],
   [], [], [], [], [], [], []⟩

/-- C2 (code defect witnessed): a connector object-type ending in neither
suffix does not raise a Malformed error.  In `CL4` the second connector has
type `Connector:Bogus` and resolution returns the first connector's record
again in its place (a record of another connector); in `CL2` the defective
connector comes first and resolution raises `UnboundLocalError` (the stale
`connector_info` variable does not exist yet), not a Malformed error. -/
theorem connector_bad_type_C2 :
    strEndsWith (strToLower "Connector:Bogus") "splitter" = false ∧
    strEndsWith (strToLower "Connector:Bogus") "mixer" = false ∧
    get_connectors_from_list C2model "CL4"
      = .ok (some [.splitter "S1" "Connector:Splitter" "BIn" ["BOut1"],
                   .splitter "S1" "Connector:Splitter" "BIn" ["BOut1"]]) ∧
    get_connectors_from_list C2model "CL2" = .error .unboundLocalError :=
  ⟨by rfl, by rfl, by rfl, by rfl⟩

/-! ## C5: even key count -/

def C5cexList : Attrs :=
  [("connector_1_name", "X"), ("connector_1_object_type", "Connector:Bogus")]

def C5model : Model :=
  ⟨[], [], [], [], [], [("CL", C5cexList)], [], [], [], [], [], [], [], []⟩

/-- C5 counterexample: a ConnectorList whose attribute map has the even key
count `2·1`, for which resolution raises instead of returning exactly one
Splitter-or-Mixer record. -/
theorem connector_even_count_C5_counterexample :
    C5cexList.length = 2 * 1 ∧
    assocFind C5model.connectorList "CL" = some C5cexList ∧
    get_connectors_from_list C5model "CL" = .error .unboundLocalError :=
  ⟨by rfl, by rfl, by rfl⟩

/-- The record the loop builds for one `(name, object_type)` connector pair:
the splitter suffix is tested first, exactly as in the source. -/
def connectorRecordOf (m : Model) (s : String × String) : ConnectorInfo :=
  if strEndsWith (strToLower s.2) "splitter" then mkSplitterRecord m s.1 s.2
  else mkMixerRecord m s.1 s.2

lemma connectorsLoop_spec (m : Model) (cd : Attrs) :
    ∀ (specs : List (String × String)) (i : Nat) (last : Option ConnectorInfo)
      (acc : List ConnectorInfo),
      (∀ j (hj : j < specs.length),
        pyGet cd ("connector_" ++ toString (i + j + 1) ++ "_name")
          = some (specs.get ⟨j, hj⟩).1 ∧
        pyGet cd ("connector_" ++ toString (i + j + 1) ++ "_object_type")
          = some (specs.get ⟨j, hj⟩).2) →
      (∀ s, s ∈ specs → strEndsWith (strToLower s.2) "splitter" = true ∨
                        strEndsWith (strToLower s.2) "mixer" = true) →
      connectorsLoop m cd i specs.length last acc
        = .ok (acc ++ specs.map (connectorRecordOf m)) := by
  intro specs
  induction specs with
  | nil =>
    intro i last acc _ _
    simp [connectorsLoop]
  | cons s rest ih =>
    intro i last acc hf hsuf
    have h0 := hf 0 (by simp)
    simp only [Nat.add_zero, List.get] at h0
    obtain ⟨hn, ht⟩ := h0
    have hfr : ∀ j (hj : j < rest.length),
        pyGet cd ("connector_" ++ toString (i + 1 + j + 1) ++ "_name")
          = some (rest.get ⟨j, hj⟩).1 ∧
        pyGet cd ("connector_" ++ toString (i + 1 + j + 1) ++ "_object_type")
          = some (rest.get ⟨j, hj⟩).2 := by
      intro j hj
      have harith : i + 1 + j + 1 = i + (j + 1) + 1 := by omega
      have := hf (j + 1) (by simpa using Nat.succ_lt_succ hj)
      rw [harith]
      simpa [List.get] using this
    have hsufr : ∀ s, s ∈ rest → strEndsWith (strToLower s.2) "splitter" = true ∨
        strEndsWith (strToLower s.2) "mixer" = true := by
      intro x hx
      exact hsuf x (by simp [hx])
    show connectorsLoop m cd i (rest.length + 1) last acc = _
    by_cases hs : strEndsWith (strToLower s.2) "splitter" = true
    · simp only [connectorsLoop, hn, ht, hs, if_pos]
      rw [ih (i + 1) (some (mkSplitterRecord m s.1 s.2))
        (acc ++ [mkSplitterRecord m s.1 s.2]) hfr hsufr]
      simp [connectorRecordOf, hs]
    · have hm : strEndsWith (strToLower s.2) "mixer" = true := by
        rcases hsuf s (by simp) with h | h
        · exact absurd h hs
        · exact h
      simp only [connectorsLoop, hn, ht, hs, hm, if_pos, if_neg, Bool.false_eq_true,
        not_false_eq_true]
      rw [ih (i + 1) (some (mkMixerRecord m s.1 s.2))
        (acc ++ [mkMixerRecord m s.1 s.2]) hfr hsufr]
      simp [connectorRecordOf, hs]

/-- C5 (amended): for every ConnectorList whose attribute map has even key
count `2n` and carries the `connector_i_name` / `connector_i_object_type`
fields for `i = 1..n`, each object-type ending (case-insensitively) in
`splitter` or `mixer`, resolution returns exactly `n` connector records, the
`i`-th built from connector `i` and each unambiguously a Splitter or a Mixer
according to its suffix. -/
theorem connector_even_count_C5_amended (m : Model) (nm : String) (cd : Attrs)
    (specs : List (String × String))
    (hfind : assocFind m.connectorList nm = some cd)
    (hlen : cd.length = 2 * specs.length)
    (hf : ∀ j (hj : j < specs.length),
        pyGet cd ("connector_" ++ toString (j + 1) ++ "_name")
          = some (specs.get ⟨j, hj⟩).1 ∧
        pyGet cd ("connector_" ++ toString (j + 1) ++ "_object_type")
          = some (specs.get ⟨j, hj⟩).2)
    (hsuf : ∀ s, s ∈ specs → strEndsWith (strToLower s.2) "splitter" = true ∨
                             strEndsWith (strToLower s.2) "mixer" = true) :
    get_connectors_from_list m nm = .ok (some (specs.map (connectorRecordOf m))) ∧
    (specs.map (connectorRecordOf m)).length = specs.length ∧
    cd.length = 2 * (specs.map (connectorRecordOf m)).length := by
  have hloop := connectorsLoop_spec m cd specs 0 none []
    (by intro j hj; simpa using hf j hj) hsuf
  refine ⟨?_, by simp, by simpa using hlen⟩
  unfold get_connectors_from_list
  rw [hfind]
  dsimp only
  rw [hlen]
  have hdiv : 2 * specs.length / 2 = specs.length := by omega
  simp only [Nat.mul_mod_right, beq_self_eq_true, if_pos, hdiv, hloop]
  simp

def C5wConnList : Attrs :=
  [("connector_1_name", "SP"), ("connector_1_object_type", "Connector:Splitter"),
   ("connector_2_name", "MX"), ("connector_2_object_type", "Connector:Mixer")]

def C5wmodel : Model :=
  ⟨[], [], [], [], [], [("CL", C5wConnList)],
   [("SP", ⟨[("inlet_branch_name", "B0")],
            [[("outlet_branch_name", "B1")], [("outlet_branch_name", "B2")]]⟩)],
   [("MX", ⟨[("outlet_branch_name", "B9")],
            [[("inlet_branch_name", "B1")], [("inlet_branch_name", "B2")]]⟩)],
   [], [], [], [], [], []⟩

theorem connector_even_count_C5_witness :
    get_connectors_from_list C5wmodel "CL"
      = .ok (some ([("SP", "Connector:Splitter"), ("MX", "Connector:Mixer")].map
          (connectorRecordOf C5wmodel))) ∧
    get_connectors_from_list C5wmodel "CL"
      = .ok (some [.splitter "SP" "Connector:Splitter" "B0" ["B1", "B2"],
                   .mixer "MX" "Connector:Mixer" ["B1", "B2"] "B9"]) := by
  refine ⟨?_, by rfl⟩
  exact (connector_even_count_C5_amended C5wmodel "CL" C5wConnList
    [("SP", "Connector:Splitter"), ("MX", "Connector:Mixer")]
    (by rfl) (by rfl) (by decide) (by decide)).1

/-! ## C6: odd key count -/

/-- C6: for every ConnectorList whose attribute map has an odd key count,
resolution of that list fails entirely (`ok none`, never a partial list of
records), and the failure aborts only that connector list: a plant loop
naming it as its supply connector list still yields a full Topology, with
`connector_lists` unset (`none`) on that side and every other part — both
sides' nodes, branches, and the demand connectors — still resolved. -/
theorem odd_connector_list_C6 (m : Model) (cl lname : String) (cd o : Attrs)
    (dr : Option (List ConnectorInfo))
    (hc : assocFind m.connectorList cl = some cd)
    (hodd : cd.length % 2 = 1)
    (hl : findLoop m lname = some ("PlantLoop", o))
    (hne : o.isEmpty = false)
    (hsup : pyGetD o "plant_side_connector_list_name" "" = cl)
    (hcl : cl ≠ "")
    (hdem : (if pyGetD o "demand_side_connector_list_name" "" != "" then
               get_connectors_from_list m (pyGetD o "demand_side_connector_list_name" "")
             else .ok (some [])) = .ok dr) :
    get_connectors_from_list m cl = .ok none ∧
    get_loop_topology m lname = .ok (.pc ⟨lname, "PlantLoop",
      ⟨(if pyGetD o "plant_side_branch_list_name" "" != "" then
          get_branches_from_list m (.pstr (pyGetD o "plant_side_branch_list_name" ""))
        else []),
        pyGetD o "plant_side_inlet_node_name" "Unknown",
        pyGetD o "plant_side_outlet_node_name" "Unknown",
        none⟩,
      ⟨(if pyGetD o "demand_side_branch_list_name" "" != "" then
          get_branches_from_list m (.pstr (pyGetD o "demand_side_branch_list_name" ""))
        else []),
        pyGetD o "demand_side_inlet_node_name" "Unknown",
        pyGetD o "demand_side_outlet_node_name" "Unknown",
        dr⟩⟩) := by
  have h1 : get_connectors_from_list m cl = .ok none := by
    unfold get_connectors_from_list
    rw [hc]
    dsimp only
    simp [hodd]
  refine ⟨h1, ?_⟩
  have hclb : (cl != "") = true := bne_iff_ne.mpr hcl
  have h2 : get_plant_condenser_topology m o "PlantLoop" lname = .ok
      ⟨lname, "PlantLoop",
       ⟨(if pyGetD o "plant_side_branch_list_name" "" != "" then
           get_branches_from_list m (.pstr (pyGetD o "plant_side_branch_list_name" ""))
         else []),
         pyGetD o "plant_side_inlet_node_name" "Unknown",
         pyGetD o "plant_side_outlet_node_name" "Unknown",
         none⟩,
       ⟨(if pyGetD o "demand_side_branch_list_name" "" != "" then
           get_branches_from_list m (.pstr (pyGetD o "demand_side_branch_list_name" ""))
         else []),
         pyGetD o "demand_side_inlet_node_name" "Unknown",
         pyGetD o "demand_side_outlet_node_name" "Unknown",
         dr⟩⟩ := by
    unfold get_plant_condenser_topology
    simp only [beq_self_eq_true, if_true, hsup, hclb, h1, hdem]
  unfold get_loop_topology
  rw [hl]
  dsimp only
  rw [if_neg (by simp [hne]), if_neg (by decide), h2]
  rfl

def C6wPlantAttrs : Attrs := [("plant_side_connector_list_name", "CL")]

def C6wmodel : Model :=
  ⟨[("P", C6wPlantAttrs)], [], [], [], [],
   [("CL", [("connector_1_name", "A")])],
   [], [], [], [], [], [], [], []⟩

theorem odd_connector_list_C6_witness :
    get_connectors_from_list C6wmodel "CL" = .ok none ∧
    get_loop_topology C6wmodel "P" = .ok (.pc ⟨"P", "PlantLoop",
      ⟨[], "Unknown", "Unknown", none⟩,
      ⟨[], "Unknown", "Unknown", some []⟩⟩) := by
  have h := odd_connector_list_C6 C6wmodel "CL" "P" [("connector_1_name", "A")]
    C6wPlantAttrs (some []) (by rfl) (by rfl) (by rfl) (by rfl) (by rfl)
    (by decide) (by rfl)
  exact ⟨h.1, h.2⟩

/-! ## C7: path selection by exact node match -/

/-- C7: a SupplyPath is included in the selection for a node exactly when its
`supply_air_path_inlet_node_name` field (with the empty-string default) is
string-equal to that node; ReturnPath selection is symmetric on
`return_air_path_outlet_node_name`; and inside the air-loop topology the
demand side's path lists are exactly these selections at the loop's
demand-inlet and demand-outlet nodes. -/
theorem path_selection_by_node_C7 (m : Model) (node : String) :
    (∀ p, p ∈ m.supplyPath →
      (supplyPathInfoOf p ∈ get_airloop_supply_paths_by_node m node ↔
        pyGetD p.2 "supply_air_path_inlet_node_name" "" = node)) ∧
    (∀ p, p ∈ m.returnPath →
      (returnPathInfoOf p ∈ get_airloop_return_paths_by_node m node ↔
        pyGetD p.2 "return_air_path_outlet_node_name" "" = node)) ∧
    (∀ (loop_obj : Attrs) (loop_name : String),
      (get_airloop_topology m loop_obj loop_name).demand_side.supply_paths
        = get_airloop_supply_paths_by_node m
            (pyGetD loop_obj "demand_side_inlet_node_names" "Unknown") ∧
      (get_airloop_topology m loop_obj loop_name).demand_side.return_paths
        = get_airloop_return_paths_by_node m
            (pyGetD loop_obj "demand_side_outlet_node_names" "Unknown")) := by
  have hs : get_airloop_supply_paths_by_node m node
      = m.supplyPath.filterMap (fun p =>
          if pyGetD p.2 "supply_air_path_inlet_node_name" "" == node
          then some (supplyPathInfoOf p) else none) := by
    unfold get_airloop_supply_paths_by_node
    simpa using foldl_append_guard
      (fun p => pyGetD p.2 "supply_air_path_inlet_node_name" "" == node)
      supplyPathInfoOf m.supplyPath []
  have hr : get_airloop_return_paths_by_node m node
      = m.returnPath.filterMap (fun p =>
          if pyGetD p.2 "return_air_path_outlet_node_name" "" == node
          then some (returnPathInfoOf p) else none) := by
    unfold get_airloop_return_paths_by_node
    simpa using foldl_append_guard
      (fun p => pyGetD p.2 "return_air_path_outlet_node_name" "" == node)
      returnPathInfoOf m.returnPath []
  refine ⟨?_, ?_, ?_⟩
  · intro p hp
    rw [hs]
    constructor
    · intro hmem
      rcases List.mem_filterMap.mp hmem with ⟨q, hq, hqe⟩
      by_cases hq2 : pyGetD q.2 "supply_air_path_inlet_node_name" "" == node
      · rw [if_pos hq2] at hqe
        have hinfo : supplyPathInfoOf q = supplyPathInfoOf p := Option.some_inj.mp hqe
        have hnode : pyGetD q.2 "supply_air_path_inlet_node_name" ""
            = pyGetD p.2 "supply_air_path_inlet_node_name" "" :=
          congrArg SupplyPathInfo.inlet_node hinfo
        rw [← hnode]
        exact eq_of_beq hq2
      · rw [if_neg hq2] at hqe
        exact absurd hqe (by simp)
    · intro heq
      exact List.mem_filterMap.mpr ⟨p, hp, by simp [heq]⟩
  · intro p hp
    rw [hr]
    constructor
    · intro hmem
      rcases List.mem_filterMap.mp hmem with ⟨q, hq, hqe⟩
      by_cases hq2 : pyGetD q.2 "return_air_path_outlet_node_name" "" == node
      · rw [if_pos hq2] at hqe
        have hinfo : returnPathInfoOf q = returnPathInfoOf p := Option.some_inj.mp hqe
        have hnode : pyGetD q.2 "return_air_path_outlet_node_name" ""
            = pyGetD p.2 "return_air_path_outlet_node_name" "" :=
          congrArg ReturnPathInfo.outlet_node hinfo
        rw [← hnode]
        exact eq_of_beq hq2
      · rw [if_neg hq2] at hqe
        exact absurd hqe (by simp)
    · intro heq
      exact List.mem_filterMap.mpr ⟨p, hp, by simp [heq]⟩
  · intro loop_obj loop_name
    exact ⟨rfl, rfl⟩

def C7spAttrs : Attrs :=
  [("supply_air_path_inlet_node_name", "DIN"),
   ("component_1_name", "ZS"), ("component_1_object_type", "AirLoopHVAC:ZoneSplitter")]

def C7rpAttrs : Attrs := [("return_air_path_outlet_node_name", "DOUT")]

def C7wmodel : Model :=
  ⟨[], [], [], [], [], [], [], [],
   [("SP1", C7spAttrs)], [("RP1", C7rpAttrs)], [], [], [], []⟩

theorem path_selection_by_node_C7_witness :
    supplyPathInfoOf ("SP1", C7spAttrs) ∈ get_airloop_supply_paths_by_node C7wmodel "DIN" ∧
    supplyPathInfoOf ("SP1", C7spAttrs) ∉ get_airloop_supply_paths_by_node C7wmodel "OTHER" ∧
    returnPathInfoOf ("RP1", C7rpAttrs) ∈ get_airloop_return_paths_by_node C7wmodel "DOUT" := by
  refine ⟨?_, ?_, ?_⟩
  · exact ((path_selection_by_node_C7 C7wmodel "DIN").1 ("SP1", C7spAttrs)
      (by decide)).mpr (by rfl)
  · intro hmem
    have := ((path_selection_by_node_C7 C7wmodel "OTHER").1 ("SP1", C7spAttrs)
      (by decide)).mp hmem
    exact absurd this (by decide)
  · exact ((path_selection_by_node_C7 C7wmodel "DOUT").2.1 ("RP1", C7rpAttrs)
      (by decide)).mpr (by rfl)

/-! ## C8: loop lookup and dispatch order -/

/-- C8: a name absent from all three loop collections makes the topology
query fail with the not-found error (no Topology value is returned), and when
a name is present in more than one collection, the loop kind and object are
taken from the first collection containing it, in the order PlantLoop,
CondenserLoop, AirLoopHVAC. -/
theorem loop_lookup_dispatch_C8 (m : Model) (nm : String) :
    (assocFind m.plantLoop nm = none → assocFind m.condenserLoop nm = none →
      assocFind m.airLoopHVAC nm = none →
      get_loop_topology m nm = .error (.valueError (notFoundMsg nm))) ∧
    (∀ o, assocFind m.plantLoop nm = some o → findLoop m nm = some ("PlantLoop", o)) ∧
    (∀ o, assocFind m.plantLoop nm = none → assocFind m.condenserLoop nm = some o →
      findLoop m nm = some ("CondenserLoop", o)) ∧
    (∀ o, assocFind m.plantLoop nm = none → assocFind m.condenserLoop nm = none →
      assocFind m.airLoopHVAC nm = some o → findLoop m nm = some ("AirLoopHVAC", o)) := by
  refine ⟨?_, ?_, ?_, ?_⟩
  · intro h1 h2 h3
    unfold get_loop_topology findLoop
    rw [h1, h2, h3]
  · intro o h
    unfold findLoop
    rw [h]
  · intro o h1 h2
    unfold findLoop
    rw [h1, h2]
  · intro o h1 h2 h3
    unfold findLoop
    rw [h1, h2, h3]

def C8wmodel : Model :=
  ⟨[("L", [("fluid_type", "Water")])], [("L", [("x", "y")])], [],
   [], [], [], [], [], [], [], [], [], [], []⟩

theorem loop_lookup_dispatch_C8_witness :
    get_loop_topology C8wmodel "Z" = .error (.valueError (notFoundMsg "Z")) ∧
    findLoop C8wmodel "L" = some ("PlantLoop", [("fluid_type", "Water")]) := by
  constructor
  · exact (loop_lookup_dispatch_C8 C8wmodel "Z").1 (by rfl) (by rfl) (by rfl)
  · exact (loop_lookup_dispatch_C8 C8wmodel "L").2.1 [("fluid_type", "Water")] (by rfl)

/-! ## C9: the query never mutates the model -/

/-- C9: the state-threaded topology query returns its Model state unchanged,
for every model and loop name, whether it produces a Topology or an error —
every operation the source performs on `ep` is a read — and its result is the
pure query's result. -/
theorem topology_query_preserves_model_C9 (m : Model) (loop_name : String) :
    (getLoopTopologyST loop_name m).2 = m ∧
    (getLoopTopologyST loop_name m).1 = get_loop_topology m loop_name := by
  unfold getLoopTopologyST stBind stPure findLoopST airloopTopologyST pcTopologyST
    get_loop_topology
  cases findLoop m loop_name with
  | none => exact ⟨rfl, rfl⟩
  | some pr =>
    obtain ⟨t, o⟩ := pr
    by_cases he : o.isEmpty = true
    · simp [he]
    · by_cases ht : (t == "AirLoopHVAC") = true
      · simp [he, ht]
      · simp [he, ht]

/-! ## C10: presence tested by truthiness -/

/-- C10: when the name dispatch finds the loop object but that object is an
empty attribute map, the query raises the not-found error rather than
returning a Topology, because `if not loop_obj` tests truthiness of the
looked-up object, not key membership. -/
theorem empty_loop_object_C10 (m : Model) (nm t : String) (o : Attrs)
    (h : findLoop m nm = some (t, o)) (he : o = []) :
    get_loop_topology m nm = .error (.valueError (notFoundMsg nm)) := by
  unfold get_loop_topology
  rw [h]
  dsimp only
  rw [if_pos (by simp [he])]

def C10wmodel : Model :=
  ⟨[("P", [])], [], [("P", [("supply_side_inlet_node_name", "X")])],
   [], [], [], [], [], [], [], [], [], [], []⟩

theorem empty_loop_object_C10_witness :
    get_loop_topology C10wmodel "P" = .error (.valueError (notFoundMsg "P")) :=
  empty_loop_object_C10 C10wmodel "P" "PlantLoop" [] (by rfl) (by rfl)
